import Mathlib

/-!
Verification development for the iOS 26 call-screening detection function
(ios26_CallScreeningDetection_Transcriptions.js).

The JavaScript source is shallowly embedded:
* text is `List Char`; JS `toLowerCase` is `Char.toLower` mapping,
  `includes` is substring containment, `split(/\s+/)` field counting is
  modelled by counting maximal whitespace runs, `trim` drops whitespace
  at both ends;
* the per-call global maps (callStates, callTranscripts, callStartTimes,
  amdResults, processedActions) become the `Store` structure, sliced to a
  single call sid (every map access in the source is keyed by callSid);
* timestamps are naturals in milliseconds; the source compares
  `elapsedTime` (seconds, real division by 1000) with constants, which is
  equivalent to comparing milliseconds with the constants scaled by 1000;
* the side effects of one webhook invocation are recorded as a trace
  (`List Op`): marking a processed-action tag, setting the call state, and
  invoking one of the three external REST actions;
* `playIOS26Response` may report ABORTED depending on the external call
  resource; at the resolver level this outcome is an oracle parameter
  (`idAborted`), since it does not change the session store.

The quote character (code 39) may not appear literally here, so phrase
lists from the source spell it via `apoc`.
-/

namespace IOS26Screening

/-- Whitespace characters matched by the JS regex class backslash-s
(space, tab, LF, VT, FF, CR); the source only ever meets plain spaces. -/
def isWsChar (c : Char) : Bool :=
  c = ' ' || c = Char.ofNat 9 || c = Char.ofNat 10 || c = Char.ofNat 11 ||
    c = Char.ofNat 12 || c = Char.ofNat 13

/-- JS `String.prototype.trim`: drop whitespace from both ends. -/
def trimL (s : List Char) : List Char :=
  ((s.dropWhile isWsChar).reverse.dropWhile isWsChar).reverse

/-- JS `String.prototype.toLowerCase` (ASCII, as used by the source). -/
def lowerL (s : List Char) : List Char := s.map Char.toLower

/-- JS `String.prototype.includes`: `pat` occurs contiguously in the text. -/
def isSubstr (pat : List Char) : List Char → Bool
  | [] => pat.isEmpty
  | c :: rest => pat.isPrefixOf (c :: rest) || isSubstr pat rest

/-- Auxiliary run counter: the flag records whether the previous
character was whitespace (inside a run). -/
def wsRunsAux : List Char → Bool → Nat
  | [], _ => 0
  | c :: rest, inRun =>
    if isWsChar c then (if inRun then 0 else 1) + wsRunsAux rest true
    else wsRunsAux rest false

/-- Number of maximal whitespace runs in the text. -/
def wsRuns (l : List Char) : Nat := wsRunsAux l false

/-- Field count of JS `text.split(/\s+/)`: one more than the number of
maximal whitespace runs (leading/trailing runs produce empty fields). -/
def jsWordCount (l : List Char) : Nat := wsRuns l + 1

/-- The apostrophe character (code 39). -/
def apoc : Char := Char.ofNat 39

/-- Shorthand: a pattern literal from the source. -/
def strL (s : String) : List Char := s.data

/-- A source pattern containing one apostrophe, split around it. -/
def strq (a b : String) : List Char := a.data ++ [apoc] ++ b.data

/-- Phrase list of `detectIOS26Patterns` (the preamble classifier). -/
def ios26Patterns : List (List Char) :=
  [strL "record your name and reason for calling",
   strL "if you record your name",
   strL "name and reason for calling",
   strL "see if this person is available",
   strq "i" "ll see if this person",
   strL "record your name",
   strL "reason for calling",
   strL "reason for your call",
   strL "state your name",
   strL "say your name",
   strL "this person is available",
   strL "see if this person",
   strL "checking if this person"]

/-- Phrase list of `detectIntermediatePrompts`. -/
def intermediatePatterns : List (List Char) :=
  [strL "thanks",
   strL "thank you",
   strL "please stay on the line",
   strL "stay on the line",
   strL "please hold",
   strL "one moment"]

/-- Phrase list of `detectVoicemailPatterns`. -/
def voicemailPatterns : List (List Char) :=
  [strL "leave a message",
   strL "leave an additional message",
   strL "after the tone",
   strL "after the beep",
   strL "not available",
   strL "unable to take your call",
   strL "voicemail",
   strL "please leave",
   strL "at the sound of the beep",
   strq "can" "t come to the phone",
   strL "cannot come to the phone",
   strq "can" "t take your call",
   strL "cannot take your call",
   strL "please call back",
   strL "call back later",
   strL "try again later",
   strL "leave your name and number",
   strL "record your message",
   strL "recording",
   strL "mailbox",
   strL "call has been forwarded",
   strL "forwarded to voicemail",
   strL "forwarded to an automatic voice message",
   strL "person you are trying to reach",
   strq "person you" "re trying to reach",
   strL "person you are calling",
   strL "subscriber you are calling",
   strL "subscriber you have called",
   strL "is unavailable",
   strL "is not available"]

/-- Secondary greeting list inside `detectHumanSpeech` (voicemail phrasings
that read as human-like and are filtered out). -/
def humanVmGreetingPatterns : List (List Char) :=
  [strq "can" "t come to the phone",
   strL "cannot come to the phone",
   strq "can" "t take your call",
   strL "cannot take your call",
   strL "not available right now",
   strL "not available to take",
   strL "unable to answer",
   strL "away from my phone",
   strL "please leave a message",
   strq "you" "ve reached",
   strL "you have reached",
   strL "this is the voicemail",
   strL "at the tone"]

/-- Interactive-speech marker list inside `detectHumanSpeech`. -/
def humanPatterns : List (List Char) :=
  [strL "who is this",
   strL "who are you",
   strL "what do you want",
   strL "hold on",
   strL "wait",
   strL "speaking",
   strL "this is"]

/-- `detectIOS26Patterns(text)` from the source. -/
def detectIOS26Patterns (text : List Char) : Bool :=
  if text.isEmpty then false
  else ios26Patterns.any (fun p => isSubstr p (lowerL text))

/-- `detectIntermediatePrompts(text)` from the source: the word-count gate
(more than 10 split fields means not a prompt) then the phrase match. -/
def detectIntermediatePrompts (text : List Char) : Bool :=
  if text.isEmpty then false
  else
    let lower := lowerL text
    if jsWordCount lower > 10 then false
    else intermediatePatterns.any (fun p => isSubstr p lower)

/-- `detectVoicemailPatterns(text)` from the source. -/
def detectVoicemailPatterns (text : List Char) : Bool :=
  if text.isEmpty then false
  else voicemailPatterns.any (fun p => isSubstr p (lowerL text))

/-- `detectHumanSpeech(text)` from the source: exclusion of the other three
classifiers and of the secondary greeting list, then the interactive
markers, or a question mark together with who/what/why. -/
def detectHumanSpeech (text : List Char) : Bool :=
  if text.isEmpty then false
  else
    let lower := lowerL text
    if detectIOS26Patterns text || detectVoicemailPatterns text then false
    else if detectIntermediatePrompts text then false
    else if humanVmGreetingPatterns.any (fun p => isSubstr p lower) then false
    else
      let hasHumanPattern := humanPatterns.any (fun p => isSubstr p lower)
      let hasInteractiveQuestion := text.contains '?' &&
        (isSubstr (strL "who") lower || isSubstr (strL "what") lower ||
          isSubstr (strL "why") lower)
      hasHumanPattern || hasInteractiveQuestion

/-! ## Session store and events -/

/-- The call states of the source state machine. -/
inductive CallState
  | INITIAL
  | IOS26_MONITORING
  | PASSTHROUGH
  | VOICEMAIL_DELIVERED
deriving DecidableEq, Repr

/-- The processed-action tags inserted by `markActionProcessed`. -/
inductive ActionTag
  | human_passthrough
  | human_passthrough_fallback
  | voicemail_direct
  | voicemail_after_ios26
  | human_after_ios26
deriving DecidableEq, Repr

/-- The three external REST actions of the dispatcher. -/
inductive ExternalAction
  | identify
  | leaveVoicemail
  | passthrough
deriving DecidableEq, Repr

/-- AMD classification values (`AnsweredBy`). -/
inductive AMDResult
  | machine_start
  | machine_end_beep
  | human
  | fax
  | unknown
deriving DecidableEq, Repr

/-- One primitive side effect of a webhook invocation, in execution order. -/
inductive Op
  | markTag (t : ActionTag)
  | setState (s : CallState)
  | invoke (a : ExternalAction)
deriving DecidableEq, Repr

/-- The per-call slice of the five global maps; `none` is an absent entry
(`getCallState` then reports UNKNOWN). `processed` is the Set of tags. -/
structure Store where
  callState : Option CallState
  transcripts : Option (List Char)
  startTime : Option Nat
  amdResult : Option AMDResult
  processed : List ActionTag
deriving DecidableEq, Repr

/-- The store before any webhook for the call arrived. -/
def emptyStore : Store := ⟨none, none, none, none, []⟩

/-- JS `Set.prototype.add` on the processed-action set. -/
def addTag (ts : List ActionTag) (t : ActionTag) : List ActionTag :=
  if t ∈ ts then ts else t :: ts

/-- `initializeCallState`: state INITIAL, start time now, empty window. -/
def initCallState (st : Store) (now : Nat) : Store :=
  { st with callState := some CallState.INITIAL, startTime := some now,
            transcripts := some [] }

/-- `getCallElapsedTime` in milliseconds (0 when no start time recorded). -/
def elapsedMs (st : Store) (now : Nat) : Nat :=
  match st.startTime with
  | some s => now - s
  | none => 0

/-- JS `s.slice(-k)` for a string longer than `k`; with natural-number
subtraction it is the identity when the length is at most `k`. -/
def rightTrunc (k : Nat) (l : List Char) : List Char := l.drop (l.length - k)

/-- One accumulation step of the transcript window: append a space and the
trimmed chunk, then keep only the most recent 300 characters. -/
def accumulateWindow (acc : List Char) (tr : List Char) : List Char :=
  let full := acc ++ [' '] ++ trimL tr
  if full.length > 300 then rightTrunc 300 full else full

/-- The detection-result objects returned by the resolver. -/
inductive DetResult
  | scenario1
  | scenario1_inferred
  | scenario1_voicemail
  | scenario2
  | scenario3
  | scenario3_fallback
  | scenario4
deriving DecidableEq, Repr

/-! ## The scenario resolver (`processTranscriptionWithScenarios`)

Direct translation of the source, one `if` chain per code block, in source
order: scenario 3 (early human), its timing fallback, the PASSTHROUGH
guard, scenario 4 (direct voicemail), scenario 1 (preamble), retroactive
preamble inference, scenario 2 (monitoring resolution). The returned
triple is the updated store, the trace of side effects in execution order,
and the detection result (`none` both for keep-monitoring and for the
paths that return null after an internal guard). -/

def processTranscriptionWithScenarios (st : Store) (tr : List Char) (now : Nat)
    (idAborted : Bool) : Store × List Op × Option DetResult :=
  let cs := st.callState
  let e := elapsedMs st now
  let acc := accumulateWindow (st.transcripts.getD []) tr
  let st1 : Store := { st with transcripts := some acc }
  if cs = some CallState.INITIAL ∧ 5000 < e ∧ e < 35000 ∧
      ((detectHumanSpeech tr || detectHumanSpeech acc) = true ∨
        st.amdResult = some AMDResult.human) ∧
      (detectIOS26Patterns tr || detectIOS26Patterns acc) = false then
    if ActionTag.human_passthrough ∈ st.processed then (st1, [], none)
    else
      ({ st1 with callState := some CallState.PASSTHROUGH,
                  processed := addTag st1.processed ActionTag.human_passthrough },
       [Op.invoke ExternalAction.passthrough, Op.setState CallState.PASSTHROUGH,
        Op.markTag ActionTag.human_passthrough],
       some DetResult.scenario3)
  else if cs = some CallState.INITIAL ∧ 20000 < e ∧ e < 25000 ∧
      detectIOS26Patterns acc = false ∧
      st.amdResult ≠ some AMDResult.machine_start ∧
      st.amdResult ≠ some AMDResult.machine_end_beep ∧
      ActionTag.human_passthrough_fallback ∉ st.processed then
    ({ st1 with callState := some CallState.PASSTHROUGH,
                processed := addTag st1.processed ActionTag.human_passthrough_fallback },
     [Op.invoke ExternalAction.passthrough, Op.setState CallState.PASSTHROUGH,
      Op.markTag ActionTag.human_passthrough_fallback],
     some DetResult.scenario3_fallback)
  else if cs = some CallState.PASSTHROUGH then (st1, [], none)
  else if cs = some CallState.INITIAL ∧ e < 30000 ∧
      ((detectVoicemailPatterns tr || detectVoicemailPatterns acc) = true ∨
        st.amdResult = some AMDResult.machine_start ∨
        st.amdResult = some AMDResult.machine_end_beep) ∧
      (detectIOS26Patterns tr || detectIOS26Patterns acc) = false then
    if ActionTag.voicemail_direct ∈ st.processed then (st1, [], none)
    else
      ({ st1 with callState := some CallState.VOICEMAIL_DELIVERED,
                  processed := addTag st1.processed ActionTag.voicemail_direct },
       [Op.markTag ActionTag.voicemail_direct, Op.setState CallState.VOICEMAIL_DELIVERED,
        Op.invoke ExternalAction.leaveVoicemail],
       some DetResult.scenario4)
  else if cs = some CallState.INITIAL ∧
      (detectIOS26Patterns tr || detectIOS26Patterns acc) = true then
    if st1.callState = some CallState.IOS26_MONITORING then (st1, [], none)
    else
      ({ st1 with callState := some CallState.IOS26_MONITORING },
       [Op.setState CallState.IOS26_MONITORING, Op.invoke ExternalAction.identify],
       if idAborted then none else some DetResult.scenario1)
  else if cs = some CallState.INITIAL ∧ detectIntermediatePrompts tr = true ∧
      e < 12000 then
    if st1.callState = some CallState.IOS26_MONITORING then (st1, [], none)
    else
      ({ st1 with callState := some CallState.IOS26_MONITORING },
       [Op.setState CallState.IOS26_MONITORING, Op.invoke ExternalAction.identify],
       if idAborted then none else some DetResult.scenario1_inferred)
  else if cs = some CallState.IOS26_MONITORING then
    if detectIntermediatePrompts tr = true then (st1, [], none)
    else if (detectVoicemailPatterns tr || detectVoicemailPatterns acc) = true then
      if ActionTag.voicemail_after_ios26 ∈ st.processed then (st1, [], none)
      else
        ({ st1 with callState := some CallState.VOICEMAIL_DELIVERED,
                    processed := addTag st1.processed ActionTag.voicemail_after_ios26 },
         [Op.markTag ActionTag.voicemail_after_ios26,
          Op.setState CallState.VOICEMAIL_DELIVERED,
          Op.invoke ExternalAction.leaveVoicemail],
         some DetResult.scenario1_voicemail)
    else if (detectHumanSpeech tr || detectHumanSpeech acc) = true then
      if ActionTag.human_after_ios26 ∈ st.processed then (st1, [], none)
      else
        ({ st1 with callState := some CallState.PASSTHROUGH,
                    processed := addTag st1.processed ActionTag.human_after_ios26 },
         [Op.invoke ExternalAction.passthrough, Op.setState CallState.PASSTHROUGH,
          Op.markTag ActionTag.human_after_ios26],
         some DetResult.scenario2)
    else (st1, [], none)
  else (st1, [], none)

/-! ## The webhook handler -/

/-- Call lifecycle statuses the handler distinguishes. -/
inductive LifecycleStatus
  | initiated
  | ringing
  | inProgress
  | answered
  | completed
  | failed
  | canceled
  | noAnswer
deriving DecidableEq, Repr

/-- A parsed transcription-content payload (`isFinal` is received but not
used by any decision in the source). -/
structure TranscriptPayload where
  transcript : List Char
  isFinal : Bool
deriving DecidableEq, Repr

/-- One webhook for the call, as the handler dispatches on the fields that
are present. A `transcriptContent` with `none` payload is a webhook whose
TranscriptionData does not parse as JSON. -/
inductive Event
  | lifecycle (status : Option LifecycleStatus) (now : Nat)
  | amd (result : AMDResult)
  | transcriptContent (payload : Option TranscriptPayload) (now : Nat) (idAborted : Bool)
  | transcriptStarted
  | transcriptStopped
deriving DecidableEq, Repr

/-- Terminal states used by the short-circuit for already-processed calls. -/
def isTerminalState : Option CallState → Bool
  | some CallState.PASSTHROUGH => true
  | some CallState.VOICEMAIL_DELIVERED => true
  | _ => false

/-- Statuses that trigger `cleanupCallState`. -/
def isCleanupStatus : Option LifecycleStatus → Bool
  | some LifecycleStatus.completed => true
  | some LifecycleStatus.failed => true
  | some LifecycleStatus.canceled => true
  | some LifecycleStatus.noAnswer => true
  | _ => false

/-- The `shouldInitialize` condition: an explicit early status, or a
webhook with a call sid but no status and no transcription event. -/
def isInitStatus : Option LifecycleStatus → Bool
  | some LifecycleStatus.initiated => true
  | some LifecycleStatus.ringing => true
  | some LifecycleStatus.inProgress => true
  | some LifecycleStatus.answered => true
  | none => true
  | _ => false

/-- Whether the event is a terminal lifecycle webhook (session cleanup). -/
def Event.isCleanup : Event → Bool
  | Event.lifecycle s _ => isCleanupStatus s
  | _ => false

/-- One invocation of `exports.handler`, restricted to its effect on the
per-call store and the emitted trace. Branch order follows the source:
the short-circuit for non-transcription webhooks on terminal states, the
AMD branch, the transcription branches (late initialization before the
JSON parse, the empty-transcript skip, then the resolver), cleanup, the
initialization branch (unchanged when the state is beyond INITIAL), and
the default continuation. -/
def handleEvent (st : Store) : Event → Store × List Op
  | Event.amd r =>
    if isTerminalState st.callState then (st, [])
    else ({ st with amdResult := some r }, [])
  | Event.lifecycle status now =>
    if isTerminalState st.callState then (st, [])
    else if isCleanupStatus status then (emptyStore, [])
    else if isInitStatus status then
      match st.callState with
      | some s => if s ≠ CallState.INITIAL then (st, []) else (initCallState st now, [])
      | none => (initCallState st now, [])
    else (st, [])
  | Event.transcriptContent payload now idAborted =>
    let st0 := match st.callState with
      | none => initCallState st now
      | some _ => st
    match payload with
    | none => (st0, [])
    | some p =>
      if trimL p.transcript = [] then (st0, [])
      else
        let out := processTranscriptionWithScenarios st0 p.transcript now idAborted
        (out.1, out.2.1)
  | Event.transcriptStarted => (st, [])
  | Event.transcriptStopped => ({ st with transcripts := none }, [])

/-- Replay a sequence of webhooks, concatenating the emitted traces. -/
def runEvents (st : Store) : List Event → Store × List Op
  | [] => (st, [])
  | e :: rest =>
    let out := handleEvent st e
    let outr := runEvents out.1 rest
    (outr.1, out.2 ++ outr.2)

/-! ## Priority-ordered branch decomposition (spec shape, for C3)

The spec describes the resolver as a fixed priority list of branches
evaluated with short-circuit. Each branch below is one block of the
source; it answers `none` when the block falls through to the next block,
and `some outcome` when the block executes a return (the outcome carries
the store, the trace, and the returned result, which is null for the
internal-guard returns). -/

/-- Outcome of a resolver invocation: store, trace, detection result. -/
def ResolveOutcome := Store × List Op × Option DetResult

/-- One priority branch of the resolver. -/
def ResolverBranch := Store → List Char → Nat → Bool → Option ResolveOutcome

/-- Branch (a): early human / direct answer (scenario 3). -/
def branchEarlyHuman : ResolverBranch := fun st tr now _ =>
  let e := elapsedMs st now
  let acc := accumulateWindow (st.transcripts.getD []) tr
  let st1 : Store := { st with transcripts := some acc }
  if st.callState = some CallState.INITIAL ∧ 5000 < e ∧ e < 35000 ∧
      ((detectHumanSpeech tr || detectHumanSpeech acc) = true ∨
        st.amdResult = some AMDResult.human) ∧
      (detectIOS26Patterns tr || detectIOS26Patterns acc) = false then
    some (if ActionTag.human_passthrough ∈ st.processed then (st1, [], none)
      else
        ({ st1 with callState := some CallState.PASSTHROUGH,
                    processed := addTag st1.processed ActionTag.human_passthrough },
         [Op.invoke ExternalAction.passthrough, Op.setState CallState.PASSTHROUGH,
          Op.markTag ActionTag.human_passthrough],
         some DetResult.scenario3))
  else none

/-- Branch (b): timing fallback for direct answer. -/
def branchTimingFallback : ResolverBranch := fun st tr now _ =>
  let e := elapsedMs st now
  let acc := accumulateWindow (st.transcripts.getD []) tr
  let st1 : Store := { st with transcripts := some acc }
  if st.callState = some CallState.INITIAL ∧ 20000 < e ∧ e < 25000 ∧
      detectIOS26Patterns acc = false ∧
      st.amdResult ≠ some AMDResult.machine_start ∧
      st.amdResult ≠ some AMDResult.machine_end_beep ∧
      ActionTag.human_passthrough_fallback ∉ st.processed then
    some
      ({ st1 with callState := some CallState.PASSTHROUGH,
                  processed := addTag st1.processed ActionTag.human_passthrough_fallback },
       [Op.invoke ExternalAction.passthrough, Op.setState CallState.PASSTHROUGH,
        Op.markTag ActionTag.human_passthrough_fallback],
       some DetResult.scenario3_fallback)
  else none

/-- Branch (c): direct voicemail (scenario 4), including the guard that
short-circuits with a null result once the call is in PASSTHROUGH. -/
def branchDirectVoicemail : ResolverBranch := fun st tr now _ =>
  let e := elapsedMs st now
  let acc := accumulateWindow (st.transcripts.getD []) tr
  let st1 : Store := { st with transcripts := some acc }
  if st.callState = some CallState.PASSTHROUGH then some (st1, [], none)
  else if st.callState = some CallState.INITIAL ∧ e < 30000 ∧
      ((detectVoicemailPatterns tr || detectVoicemailPatterns acc) = true ∨
        st.amdResult = some AMDResult.machine_start ∨
        st.amdResult = some AMDResult.machine_end_beep) ∧
      (detectIOS26Patterns tr || detectIOS26Patterns acc) = false then
    some (if ActionTag.voicemail_direct ∈ st.processed then (st1, [], none)
      else
        ({ st1 with callState := some CallState.VOICEMAIL_DELIVERED,
                    processed := addTag st1.processed ActionTag.voicemail_direct },
         [Op.markTag ActionTag.voicemail_direct, Op.setState CallState.VOICEMAIL_DELIVERED,
          Op.invoke ExternalAction.leaveVoicemail],
         some DetResult.scenario4))
  else none

/-- Branch (d): preamble detection (scenario 1 entry). -/
def branchPreamble : ResolverBranch := fun st tr _ idAborted =>
  let acc := accumulateWindow (st.transcripts.getD []) tr
  let st1 : Store := { st with transcripts := some acc }
  if st.callState = some CallState.INITIAL ∧
      (detectIOS26Patterns tr || detectIOS26Patterns acc) = true then
    some (if st1.callState = some CallState.IOS26_MONITORING then (st1, [], none)
      else
        ({ st1 with callState := some CallState.IOS26_MONITORING },
         [Op.setState CallState.IOS26_MONITORING, Op.invoke ExternalAction.identify],
         if idAborted then none else some DetResult.scenario1))
  else none

/-- Branch (e): retroactive preamble inference. -/
def branchRetroPreamble : ResolverBranch := fun st tr now idAborted =>
  let e := elapsedMs st now
  let acc := accumulateWindow (st.transcripts.getD []) tr
  let st1 : Store := { st with transcripts := some acc }
  if st.callState = some CallState.INITIAL ∧ detectIntermediatePrompts tr = true ∧
      e < 12000 then
    some (if st1.callState = some CallState.IOS26_MONITORING then (st1, [], none)
      else
        ({ st1 with callState := some CallState.IOS26_MONITORING },
         [Op.setState CallState.IOS26_MONITORING, Op.invoke ExternalAction.identify],
         if idAborted then none else some DetResult.scenario1_inferred))
  else none

/-- Branch (f): monitoring resolution (scenario 1 completion or 2). -/
def branchMonitoring : ResolverBranch := fun st tr _ _ =>
  let acc := accumulateWindow (st.transcripts.getD []) tr
  let st1 : Store := { st with transcripts := some acc }
  if st.callState = some CallState.IOS26_MONITORING then
    if detectIntermediatePrompts tr = true then some (st1, [], none)
    else if (detectVoicemailPatterns tr || detectVoicemailPatterns acc) = true then
      some (if ActionTag.voicemail_after_ios26 ∈ st.processed then (st1, [], none)
        else
          ({ st1 with callState := some CallState.VOICEMAIL_DELIVERED,
                      processed := addTag st1.processed ActionTag.voicemail_after_ios26 },
           [Op.markTag ActionTag.voicemail_after_ios26,
            Op.setState CallState.VOICEMAIL_DELIVERED,
            Op.invoke ExternalAction.leaveVoicemail],
           some DetResult.scenario1_voicemail))
    else if (detectHumanSpeech tr || detectHumanSpeech acc) = true then
      some (if ActionTag.human_after_ios26 ∈ st.processed then (st1, [], none)
        else
          ({ st1 with callState := some CallState.PASSTHROUGH,
                      processed := addTag st1.processed ActionTag.human_after_ios26 },
           [Op.invoke ExternalAction.passthrough, Op.setState CallState.PASSTHROUGH,
            Op.markTag ActionTag.human_after_ios26],
           some DetResult.scenario2))
    else none
  else none

/-- Evaluate branches in order, stopping at the first that resolves. -/
def firstResolve (bs : List ResolverBranch) (st : Store) (tr : List Char)
    (now : Nat) (ab : Bool) : Option ResolveOutcome :=
  match bs with
  | [] => none
  | b :: rest =>
    match b st tr now ab with
    | some o => some o
    | none => firstResolve rest st tr now ab

/-- The six branches in the priority order (a) to (f) of the spec. -/
def resolverBranches : List ResolverBranch :=
  [branchEarlyHuman, branchTimingFallback, branchDirectVoicemail,
   branchPreamble, branchRetroPreamble, branchMonitoring]

/-- The spec-shaped resolver: accumulate, then first resolving branch,
else the keep-monitoring result. -/
def resolveByPriority (st : Store) (tr : List Char) (now : Nat) (ab : Bool) :
    Store × List Op × Option DetResult :=
  match firstResolve resolverBranches st tr now ab with
  | some o => o
  | none =>
    ({ st with transcripts := some (accumulateWindow (st.transcripts.getD []) tr) },
     [], none)

/-! ## The action dispatcher (for C5)

The three REST actions, modelled against the external call resource.
`delayMs`, `fetchCall` and `updateCall` record, in order, the settling
delay, the re-read of the live call, and the mutation request. -/

/-- Status values of the external call resource. -/
inductive ExtCallStatus
  | queued
  | ringing
  | inProgress
  | completed
  | busy
  | failed
  | canceled
deriving DecidableEq, Repr

/-- Terminal statuses checked by `playIOS26Response`. -/
def isTerminalCallStatus : ExtCallStatus → Bool
  | ExtCallStatus.completed => true
  | ExtCallStatus.busy => true
  | ExtCallStatus.failed => true
  | ExtCallStatus.canceled => true
  | _ => false

/-- The external call resource as re-read by a dispatcher operation:
its status and, when present, milliseconds since `dateUpdated`. -/
structure ExtCall where
  status : ExtCallStatus
  msSinceUpdate : Option Nat
deriving DecidableEq, Repr

/-- Primitive external steps a dispatcher operation can take. -/
inductive DispOp
  | delayMs (n : Nat)
  | fetchCall
  | updateCall
deriving DecidableEq, Repr

/-- Result values reported by `playIOS26Response`. -/
inductive DispatchResult
  | success
  | aborted
  | error
deriving DecidableEq, Repr

/-- Outcome of the mutation request itself: it succeeds, fails with a
concurrent-modification error (code 20001 and friends), or fails fatally. -/
inductive UpdateOutcome
  | ok
  | concurrencyConflict
  | fatalFailure
deriving DecidableEq, Repr

/-- Result reported after the mutation request is issued. -/
def updResult : UpdateOutcome → DispatchResult
  | UpdateOutcome.ok => DispatchResult.success
  | UpdateOutcome.concurrencyConflict => DispatchResult.aborted
  | UpdateOutcome.fatalFailure => DispatchResult.error

/-- `playIOS26Response` (the Identify action): 100ms delay, re-read the
call, abort when it is terminal or was updated under 2s ago, else issue
the mutation. `fetchOk` is false when the re-read itself fails, in which
case the source logs a warning and continues to the mutation. -/
def playIOS26Response (ext : ExtCall) (fetchOk : Bool) (upd : UpdateOutcome) :
    DispatchResult × List DispOp :=
  if fetchOk then
    if isTerminalCallStatus ext.status then
      (DispatchResult.aborted, [DispOp.delayMs 100, DispOp.fetchCall])
    else
      match ext.msSinceUpdate with
      | some m =>
        if m < 2000 then (DispatchResult.aborted, [DispOp.delayMs 100, DispOp.fetchCall])
        else (updResult upd, [DispOp.delayMs 100, DispOp.fetchCall, DispOp.updateCall])
      | none => (updResult upd, [DispOp.delayMs 100, DispOp.fetchCall, DispOp.updateCall])
  else (updResult upd, [DispOp.delayMs 100, DispOp.fetchCall, DispOp.updateCall])

/-- `leaveVoicemailMessage`: builds the stop-transcription + pause + say
TwiML and issues the mutation unconditionally — no delay, no re-read, no
abort path, and no result value (errors are only logged). -/
def leaveVoicemailMessage (_ext : ExtCall) : List DispOp :=
  [DispOp.updateCall]

/-- `stopTranscriptionAndPassthrough`: issues the stop-transcription +
pause TwiML mutation unconditionally — no delay, no re-read, no abort. -/
def stopTranscriptionAndPassthrough (_ext : ExtCall) : List DispOp :=
  [DispOp.updateCall]

/-! ## Rank and concrete inputs used by the claim theorems -/

/-- Progress rank of a call state: the state machine only moves up. -/
def rank : Option CallState → Nat
  | none => 0
  | some CallState.INITIAL => 1
  | some CallState.IOS26_MONITORING => 2
  | some CallState.PASSTHROUGH => 3
  | some CallState.VOICEMAIL_DELIVERED => 3

/-- Invocation threshold: an action is only invoked from below this rank,
and its step leaves the state at or above it. -/
def invokeRank : ExternalAction → Nat
  | ExternalAction.identify => 2
  | ExternalAction.passthrough => 3
  | ExternalAction.leaveVoicemail => 3

/-- Space-joined concatenation of the trimmed transcript chunks, exactly
as the accumulator builds it (each chunk preceded by one space). -/
def joinTexts (texts : List (List Char)) : List Char :=
  texts.foldl (fun a t => a ++ [' '] ++ trimL t) []

/-- The transcript window after appending a sequence of chunks to an
empty window. -/
def foldWindow (texts : List (List Char)) : List Char :=
  texts.foldl accumulateWindow []

/-- Events of the third spec walkthrough (claim C6): lifecycle in-progress
at t = 0, transcript "hello?" at t = 8s, no preamble, no AMD signal. -/
def c6Events : List Event :=
  [Event.lifecycle (some LifecycleStatus.inProgress) 0,
   Event.transcriptContent (some ⟨strL "hello?", true⟩) 8000 false]

/-- A session in the monitoring state (preamble already detected and
answered), started at t = 0, nothing fired yet. -/
def monStore : Store :=
  ⟨some CallState.IOS26_MONITORING, some [], some 0, none, []⟩

/-- A fresh INITIAL session started at t = 0. -/
def initStore : Store :=
  ⟨some CallState.INITIAL, some [], some 0, none, []⟩

/-- Duplicate-delivery run: initialization, then the same direct-voicemail
transcript delivered twice. -/
def dupVmEvents : List Event :=
  [Event.lifecycle (some LifecycleStatus.inProgress) 0,
   Event.transcriptContent (some ⟨strL "please leave a message after the tone", true⟩) 9000 false,
   Event.transcriptContent (some ⟨strL "please leave a message after the tone", true⟩) 9500 false]

/-- Position of the first occurrence of an op in a trace (length when
absent); used to state execution-order facts. -/
def opIdx (o : Op) : List Op → Nat
  | [] => 0
  | x :: rest => if x = o then 0 else opIdx o rest + 1

/-! ## Shared step and run lemmas -/

set_option maxHeartbeats 4000000 in
lemma resolver_step_facts (st : Store) (tr : List Char) (now : Nat) (ab : Bool)
    (st' : Store) (ops : List Op) (r : Option DetResult)
    (heq : processTranscriptionWithScenarios st tr now ab = (st', ops, r)) :
    rank st.callState ≤ rank st'.callState ∧
    (isTerminalState st.callState = true → st'.callState = st.callState) ∧
    (st'.callState = some CallState.INITIAL → st.callState = some CallState.INITIAL) ∧
    (st'.callState = none → st.callState = none) ∧
    (∀ t, t ∈ st.processed → t ∈ st'.processed) ∧
    (∀ t, t ∈ st'.processed → t ∈ st.processed ∨ Op.markTag t ∈ ops) ∧
    (∀ t, Op.markTag t ∈ ops → t ∉ st.processed ∧ t ∈ st'.processed) ∧
    ops.Nodup ∧
    (∀ a, Op.invoke a ∈ ops → rank st.callState < invokeRank a ∧
      invokeRank a ≤ rank st'.callState) := by
  unfold processTranscriptionWithScenarios at heq
  rcases hcs : st.callState with _ | s
  · rw [hcs] at heq
    simp only [reduceCtorEq, false_and, if_false, ite_false] at heq
    cases heq
    simp [hcs]
  · cases s <;> rw [hcs] at heq <;>
      simp only [reduceCtorEq, Option.some.injEq, true_and, false_and, and_false,
        if_false, ite_false, ite_true, if_true] at heq <;>
      (try split_ifs at heq) <;> cases heq <;>
      simp_all [rank, invokeRank, addTag, isTerminalState]

set_option maxHeartbeats 4000000 in
lemma handleEvent_step_facts (st : Store) (e : Event) (hc : e.isCleanup = false)
    (st' : Store) (ops : List Op)
    (heq : handleEvent st e = (st', ops)) :
    rank st.callState ≤ rank st'.callState ∧
    (isTerminalState st.callState = true → st'.callState = st.callState) ∧
    (st'.callState = some CallState.INITIAL →
      st.callState = some CallState.INITIAL ∨ st.callState = none) ∧
    (st'.callState = none → st.callState = none) ∧
    (∀ t, t ∈ st.processed → t ∈ st'.processed) ∧
    (∀ t, t ∈ st'.processed → t ∈ st.processed ∨ Op.markTag t ∈ ops) ∧
    (∀ t, Op.markTag t ∈ ops → t ∉ st.processed ∧ t ∈ st'.processed) ∧
    ops.Nodup ∧
    (∀ a, Op.invoke a ∈ ops → rank st.callState < invokeRank a ∧
      invokeRank a ≤ rank st'.callState) := by
  cases e with
  | amd res =>
    simp only [handleEvent] at heq
    split_ifs at heq <;> cases heq <;> simp_all
  | lifecycle status tnow =>
    simp only [Event.isCleanup] at hc
    simp only [handleEvent] at heq
    rcases hst : st.callState with _ | s <;> rw [hst] at heq <;> simp only at heq <;>
      split_ifs at heq <;> cases heq <;>
      simp_all [initCallState, rank, isTerminalState]
  | transcriptStarted =>
    simp only [handleEvent] at heq
    cases heq
    exact ⟨le_refl _, fun _ => rfl, fun h => Or.inl h, fun h => h, fun t ht => ht,
      fun t ht => Or.inl ht, by simp, by simp, by simp⟩
  | transcriptStopped =>
    simp only [handleEvent] at heq
    cases heq
    exact ⟨le_refl _, fun _ => rfl, fun h => Or.inl h, fun h => h, fun t ht => ht,
      fun t ht => Or.inl ht, by simp, by simp, by simp⟩
  | transcriptContent payload tnow tab =>
    simp only [handleEvent] at heq
    rcases hst : st.callState with _ | s
    all_goals rw [hst] at heq
    all_goals simp only at heq
    · rcases payload with _ | p
      · simp only at heq
        cases heq
        simp [hst, initCallState, rank, isTerminalState]
      · simp only at heq
        by_cases htr : trimL p.transcript = []
        · rw [if_pos htr] at heq
          cases heq
          simp [hst, initCallState, rank, isTerminalState]
        · rw [if_neg htr] at heq
          rcases hout : processTranscriptionWithScenarios (initCallState st tnow)
              p.transcript tnow tab with ⟨st2, ops2, r2⟩
          rw [hout] at heq
          cases heq
          dsimp only
          have hres := resolver_step_facts _ _ _ _ _ _ _ hout
          simp only [initCallState] at hres
          obtain ⟨h1, h2, h3, h4, h5, h6, h7, h8, h9⟩ := hres
          refine ⟨?_, ?_, ?_, ?_, h5, h6, h7, h8, ?_⟩
          · exact le_trans (by decide) h1
          · intro hterm; simp [isTerminalState] at hterm
          · intro _; exact Or.inr rfl
          · intro hn; have h0 := h4 hn; simp at h0
          · intro a ha
            obtain ⟨hlt, hge⟩ := h9 a ha
            exact ⟨lt_of_le_of_lt (by decide) hlt, hge⟩
    · rcases payload with _ | p
      · simp only at heq
        cases heq
        simp [hst]
      · simp only at heq
        by_cases htr : trimL p.transcript = []
        · rw [if_pos htr] at heq
          cases heq
          simp [hst]
        · rw [if_neg htr] at heq
          rcases hout : processTranscriptionWithScenarios st p.transcript tnow tab with
            ⟨st2, ops2, r2⟩
          rw [hout] at heq
          cases heq
          dsimp only
          have hres := resolver_step_facts _ _ _ _ _ _ _ hout
          rw [hst] at hres
          exact ⟨hres.1, hres.2.1, fun h => Or.inl (hres.2.2.1 h), hres.2.2.2.1,
            hres.2.2.2.2.1, hres.2.2.2.2.2.1, hres.2.2.2.2.2.2.1,
            hres.2.2.2.2.2.2.2.1, hres.2.2.2.2.2.2.2.2⟩

lemma runEvents_append (st : Store) (l₁ l₂ : List Event) :
    runEvents st (l₁ ++ l₂) =
      ((runEvents (runEvents st l₁).1 l₂).1,
       (runEvents st l₁).2 ++ (runEvents (runEvents st l₁).1 l₂).2) := by
  induction l₁ generalizing st with
  | nil => simp [runEvents]
  | cons e rest ih => simp [runEvents, ih, List.append_assoc]

lemma run_facts (st : Store) (events : List Event)
    (hc : ∀ e ∈ events, e.isCleanup = false) :
    rank st.callState ≤ rank (runEvents st events).1.callState ∧
    (isTerminalState st.callState = true →
      (runEvents st events).1.callState = st.callState) ∧
    ((runEvents st events).1.callState = some CallState.INITIAL →
      st.callState = some CallState.INITIAL ∨ st.callState = none) ∧
    ((runEvents st events).1.callState = none → st.callState = none) ∧
    (∀ t, t ∈ st.processed → t ∈ (runEvents st events).1.processed) := by
  induction events generalizing st with
  | nil => exact ⟨le_refl _, fun _ => rfl, fun h => Or.inl h, fun h => h, fun t ht => ht⟩
  | cons e rest ih =>
    rcases h1 : handleEvent st e with ⟨st1, ops1⟩
    have hf := handleEvent_step_facts st e (hc e (by simp)) st1 ops1 h1
    have ihr := ih st1 (fun e' he' => hc e' (by simp [he']))
    simp only [runEvents, h1]
    obtain ⟨f1, f2, f3, f4, f5, f6, f7, f8, f9⟩ := hf
    obtain ⟨g1, g2, g3, g4, g5⟩ := ihr
    refine ⟨le_trans f1 g1, ?_, ?_, ?_, ?_⟩
    · intro hterm
      have h2 := f2 hterm
      have : isTerminalState st1.callState = true := by rw [h2]; exact hterm
      rw [g2 this, h2]
    · intro hI
      rcases g3 hI with h | h
      · exact f3 h
      · exact Or.inr (f4 h)
    · intro hn
      exact f4 (g4 hn)
    · intro t ht
      exact g5 t (f5 t ht)

lemma run_mark_count (st : Store) (events : List Event)
    (hc : ∀ e ∈ events, e.isCleanup = false) (t : ActionTag) :
    ((runEvents st events).2.count (Op.markTag t) ≤ 1) ∧
    (t ∈ st.processed → (runEvents st events).2.count (Op.markTag t) = 0) := by
  induction events generalizing st with
  | nil => simp [runEvents]
  | cons e rest ih =>
    rcases h1 : handleEvent st e with ⟨st1, ops1⟩
    have hf := handleEvent_step_facts st e (hc e (by simp)) st1 ops1 h1
    have ihr := ih st1 (fun e' he' => hc e' (by simp [he']))
    simp only [runEvents, h1, List.count_append]
    obtain ⟨f1, f2, f3, f4, f5, f6, f7, f8, f9⟩ := hf
    by_cases hmem : Op.markTag t ∈ ops1
    · obtain ⟨hnotin, hin⟩ := f7 t hmem
      have hrest : (runEvents st1 rest).2.count (Op.markTag t) = 0 := ihr.2 hin
      have hops : ops1.count (Op.markTag t) ≤ 1 :=
        List.nodup_iff_count_le_one.mp f8 _
      constructor
      · omega
      · intro hmemst
        exact absurd hmemst hnotin
    · have hops : ops1.count (Op.markTag t) = 0 :=
        List.count_eq_zero_of_not_mem hmem
      constructor
      · rw [hops]; simpa using ihr.1
      · intro hmemst
        rw [hops, ihr.2 (f5 t hmemst)]

lemma run_invoke_count (st : Store) (events : List Event)
    (hc : ∀ e ∈ events, e.isCleanup = false) (a : ExternalAction) :
    ((runEvents st events).2.count (Op.invoke a) ≤ 1) ∧
    (invokeRank a ≤ rank st.callState →
      (runEvents st events).2.count (Op.invoke a) = 0) := by
  induction events generalizing st with
  | nil => simp [runEvents]
  | cons e rest ih =>
    rcases h1 : handleEvent st e with ⟨st1, ops1⟩
    have hf := handleEvent_step_facts st e (hc e (by simp)) st1 ops1 h1
    have ihr := ih st1 (fun e' he' => hc e' (by simp [he']))
    simp only [runEvents, h1, List.count_append]
    obtain ⟨f1, f2, f3, f4, f5, f6, f7, f8, f9⟩ := hf
    by_cases hmem : Op.invoke a ∈ ops1
    · obtain ⟨hlt, hge⟩ := f9 a hmem
      have hrest : (runEvents st1 rest).2.count (Op.invoke a) = 0 := ihr.2 hge
      have hops : ops1.count (Op.invoke a) ≤ 1 :=
        List.nodup_iff_count_le_one.mp f8 _
      constructor
      · omega
      · intro hle
        omega
    · have hops : ops1.count (Op.invoke a) = 0 :=
        List.count_eq_zero_of_not_mem hmem
      constructor
      · rw [hops]; simpa using ihr.1
      · intro hle
        rw [hops, ihr.2 (le_trans hle f1)]

/-! ## Trace shapes and window lemmas -/

set_option maxHeartbeats 4000000 in
lemma resolver_ops_shape (st : Store) (tr : List Char) (now : Nat) (ab : Bool)
    (st' : Store) (ops : List Op) (r : Option DetResult)
    (heq : processTranscriptionWithScenarios st tr now ab = (st', ops, r)) :
    ops = [] ∨
    ops = [Op.invoke ExternalAction.passthrough, Op.setState CallState.PASSTHROUGH,
      Op.markTag ActionTag.human_passthrough] ∨
    ops = [Op.invoke ExternalAction.passthrough, Op.setState CallState.PASSTHROUGH,
      Op.markTag ActionTag.human_passthrough_fallback] ∨
    ops = [Op.markTag ActionTag.voicemail_direct, Op.setState CallState.VOICEMAIL_DELIVERED,
      Op.invoke ExternalAction.leaveVoicemail] ∨
    ops = [Op.setState CallState.IOS26_MONITORING, Op.invoke ExternalAction.identify] ∨
    ops = [Op.markTag ActionTag.voicemail_after_ios26, Op.setState CallState.VOICEMAIL_DELIVERED,
      Op.invoke ExternalAction.leaveVoicemail] ∨
    ops = [Op.invoke ExternalAction.passthrough, Op.setState CallState.PASSTHROUGH,
      Op.markTag ActionTag.human_after_ios26] := by
  unfold processTranscriptionWithScenarios at heq
  rcases hcs : st.callState with _ | s
  · rw [hcs] at heq
    simp only [reduceCtorEq, false_and, if_false, ite_false] at heq
    cases heq
    simp
  · cases s <;> rw [hcs] at heq <;>
      simp only [reduceCtorEq, Option.some.injEq, true_and, false_and, and_false,
        if_false, ite_false, ite_true, if_true] at heq <;>
      (try split_ifs at heq) <;> cases heq <;> simp

set_option maxHeartbeats 4000000 in
lemma resolver_transcripts (st : Store) (tr : List Char) (now : Nat) (ab : Bool) :
    (processTranscriptionWithScenarios st tr now ab).1.transcripts =
      some (accumulateWindow (st.transcripts.getD []) tr) := by
  unfold processTranscriptionWithScenarios
  rcases hcs : st.callState with _ | s
  · simp [hcs]
  · cases s <;>
      simp only [hcs, reduceCtorEq, Option.some.injEq, true_and, false_and, and_false,
        if_false, ite_false, ite_true, if_true] <;>
      split_ifs <;> rfl


lemma rightTrunc_append_of_le (k : Nat) (x y : List Char) (h : k ≤ y.length) :
    rightTrunc k (x ++ y) = rightTrunc k y := by
  unfold rightTrunc
  rw [List.drop_append_eq_append_drop]
  rw [List.drop_eq_nil_of_le (by rw [List.length_append]; omega), List.nil_append]
  congr 1
  rw [List.length_append]
  omega

lemma rightTrunc_idem_append (k : Nat) (a b : List Char) :
    rightTrunc k (rightTrunc k a ++ b) = rightTrunc k (a ++ b) := by
  by_cases h : a.length ≤ k
  · have ha : rightTrunc k a = a := by
      unfold rightTrunc
      rw [Nat.sub_eq_zero_of_le h, List.drop_zero]
    rw [ha]
  · push_neg at h
    have hlen : (rightTrunc k a).length = k := by
      unfold rightTrunc
      rw [List.length_drop]
      omega
    have hsplit : a.take (a.length - k) ++ rightTrunc k a = a := by
      unfold rightTrunc
      exact List.take_append_drop _ _
    conv_rhs => rw [← hsplit, List.append_assoc]
    rw [rightTrunc_append_of_le k (List.take (a.length - k) a) (rightTrunc k a ++ b)
      (by rw [List.length_append, hlen]; omega)]

lemma accumulateWindow_eq_rightTrunc (acc tr : List Char) :
    accumulateWindow acc tr = rightTrunc 300 (acc ++ [' '] ++ trimL tr) := by
  simp only [accumulateWindow, rightTrunc]
  split_ifs with h
  · rfl
  · push_neg at h
    rw [Nat.sub_eq_zero_of_le h, List.drop_zero]

lemma foldWindow_join_general (texts : List (List Char)) (j : List Char) :
    List.foldl accumulateWindow (rightTrunc 300 j) texts =
      rightTrunc 300 (List.foldl (fun a t => a ++ [' '] ++ trimL t) j texts) := by
  induction texts generalizing j with
  | nil => simp [List.foldl]
  | cons t ts ih =>
    simp only [List.foldl]
    rw [accumulateWindow_eq_rightTrunc, List.append_assoc,
      rightTrunc_idem_append, ← List.append_assoc]
    exact ih (j ++ [' '] ++ trimL t)

lemma foldWindow_spec (texts : List (List Char)) :
    foldWindow texts = rightTrunc 300 (joinTexts texts) ∧
    (foldWindow texts).length ≤ 300 := by
  have h0 : ([] : List Char) = rightTrunc 300 [] := rfl
  have h1 : foldWindow texts = rightTrunc 300 (joinTexts texts) := by
    unfold foldWindow joinTexts
    rw [h0]
    exact foldWindow_join_general texts []
  refine ⟨h1, ?_⟩
  rw [h1]
  unfold rightTrunc
  rw [List.length_drop]
  omega

/-! ## Claim theorems -/

/-- Claim C1: for every call id and every sequence of webhooks for it with
no terminal-lifecycle cleanup (including duplicated deliveries), each
action tag is inserted into the fired-action set at most once and each of
the three external actions is invoked at most once; a replay after the
first resolution therefore yields no second invocation. -/
theorem C1_at_most_once_action (events : List Event)
    (hc : ∀ e ∈ events, e.isCleanup = false) :
    (∀ t, (runEvents emptyStore events).2.count (Op.markTag t) ≤ 1) ∧
    (∀ a, (runEvents emptyStore events).2.count (Op.invoke a) ≤ 1) :=
  ⟨fun t => (run_mark_count emptyStore events hc t).1,
   fun a => (run_invoke_count emptyStore events hc a).1⟩

/-- Witness for C1 on a duplicated direct-voicemail delivery. -/
theorem C1_at_most_once_action_witness :
    (runEvents emptyStore dupVmEvents).2.count (Op.markTag ActionTag.voicemail_direct) ≤ 1 ∧
    (runEvents emptyStore dupVmEvents).2.count (Op.invoke ExternalAction.leaveVoicemail) ≤ 1 :=
  ⟨(C1_at_most_once_action dupVmEvents (by decide)).1 ActionTag.voicemail_direct,
   (C1_at_most_once_action dupVmEvents (by decide)).2 ExternalAction.leaveVoicemail⟩

/-- Claim C2: along any replayed event sequence (without cleanup) the
state only moves forward in rank, a terminal state never changes again,
and INITIAL is never re-entered after it was left. -/
theorem C2_forward_only_transitions (st : Store) (l₁ l₂ : List Event)
    (hc : ∀ e ∈ l₁ ++ l₂, e.isCleanup = false) :
    rank (runEvents st l₁).1.callState ≤ rank (runEvents st (l₁ ++ l₂)).1.callState ∧
    (isTerminalState (runEvents st l₁).1.callState = true →
      (runEvents st (l₁ ++ l₂)).1.callState = (runEvents st l₁).1.callState) ∧
    ((runEvents st (l₁ ++ l₂)).1.callState = some CallState.INITIAL →
      (runEvents st l₁).1.callState = some CallState.INITIAL ∨
        (runEvents st l₁).1.callState = none) := by
  have h2 : ∀ e ∈ l₂, e.isCleanup = false := fun e he => hc e (by simp [he])
  have hf := run_facts (runEvents st l₁).1 l₂ h2
  rw [runEvents_append st l₁ l₂]
  exact ⟨hf.1, hf.2.1, hf.2.2.1⟩

/-- Witness for C2 on the duplicated-voicemail run split after its first
event. -/
theorem C2_forward_only_transitions_witness :
    rank (runEvents emptyStore [Event.lifecycle (some LifecycleStatus.inProgress) 0]).1.callState ≤
      rank (runEvents emptyStore ([Event.lifecycle (some LifecycleStatus.inProgress) 0] ++
        [Event.transcriptContent (some ⟨strL "please leave a message after the tone", true⟩)
          9000 false])).1.callState :=
  (C2_forward_only_transitions emptyStore _ _ (by decide)).1

set_option maxHeartbeats 2000000 in
/-- Claim C3: on every transcript event the resolver equals the
evaluation, in the fixed order (a) early human, (b) timing fallback,
(c) direct voicemail, (d) preamble, (e) retroactive preamble,
(f) monitoring resolution, that stops at the first branch that resolves
and returns keep-monitoring when no branch resolves. -/
theorem C3_fixed_priority_order (st : Store) (tr : List Char) (now : Nat) (ab : Bool) :
    processTranscriptionWithScenarios st tr now ab = resolveByPriority st tr now ab := by
  simp only [resolveByPriority, resolverBranches, firstResolve, branchEarlyHuman,
    branchTimingFallback, branchDirectVoicemail, branchPreamble, branchRetroPreamble,
    branchMonitoring, processTranscriptionWithScenarios]
  rcases hcs : st.callState with _ | s
  · simp [hcs]
  · cases s <;>
      simp only [hcs, reduceCtorEq, Option.some.injEq, true_and, false_and, and_false,
        if_false, ite_false, ite_true, if_true] <;>
      split_ifs <;> rfl

/-- Claim C4, counterexample: in the monitoring-resolution human case the
trace invokes Passthrough first and only then sets the state and marks
human_after_ios26, so the tag is not marked before the external action. -/
theorem C4_mark_before_invoke_counterexample :
    (processTranscriptionWithScenarios monStore (strL "hello, who is this") 18000 false).2.1 =
      [Op.invoke ExternalAction.passthrough, Op.setState CallState.PASSTHROUGH,
       Op.markTag ActionTag.human_after_ios26] ∧
    (opIdx (Op.invoke ExternalAction.passthrough)
        (processTranscriptionWithScenarios monStore (strL "hello, who is this") 18000 false).2.1 <
      opIdx (Op.markTag ActionTag.human_after_ios26)
        (processTranscriptionWithScenarios monStore (strL "hello, who is this") 18000 false).2.1) ∧
    Op.markTag ActionTag.human_after_ios26 ∈
      (processTranscriptionWithScenarios monStore (strL "hello, who is this") 18000 false).2.1 := by
  decide

/-- Claim C4 as amended: the duplicate-tag check precedes every
invocation, and the voicemail actions mark their tag and set the state
before invoking LeaveVoicemail, but the passthrough actions invoke
Passthrough first and only then set the state and mark the tag; the
preamble action sets the state before invoking Identify and marks no tag. -/
theorem C4_guard_order_amended (st : Store) (tr : List Char) (now : Nat) (ab : Bool) :
    (Op.invoke ExternalAction.leaveVoicemail ∈
        (processTranscriptionWithScenarios st tr now ab).2.1 →
      (processTranscriptionWithScenarios st tr now ab).2.1 =
        [Op.markTag ActionTag.voicemail_direct, Op.setState CallState.VOICEMAIL_DELIVERED,
         Op.invoke ExternalAction.leaveVoicemail] ∨
      (processTranscriptionWithScenarios st tr now ab).2.1 =
        [Op.markTag ActionTag.voicemail_after_ios26, Op.setState CallState.VOICEMAIL_DELIVERED,
         Op.invoke ExternalAction.leaveVoicemail]) ∧
    (Op.invoke ExternalAction.passthrough ∈
        (processTranscriptionWithScenarios st tr now ab).2.1 →
      (processTranscriptionWithScenarios st tr now ab).2.1 =
        [Op.invoke ExternalAction.passthrough, Op.setState CallState.PASSTHROUGH,
         Op.markTag ActionTag.human_passthrough] ∨
      (processTranscriptionWithScenarios st tr now ab).2.1 =
        [Op.invoke ExternalAction.passthrough, Op.setState CallState.PASSTHROUGH,
         Op.markTag ActionTag.human_passthrough_fallback] ∨
      (processTranscriptionWithScenarios st tr now ab).2.1 =
        [Op.invoke ExternalAction.passthrough, Op.setState CallState.PASSTHROUGH,
         Op.markTag ActionTag.human_after_ios26]) ∧
    (Op.invoke ExternalAction.identify ∈
        (processTranscriptionWithScenarios st tr now ab).2.1 →
      (processTranscriptionWithScenarios st tr now ab).2.1 =
        [Op.setState CallState.IOS26_MONITORING, Op.invoke ExternalAction.identify]) := by
  rcases hout : processTranscriptionWithScenarios st tr now ab with ⟨st2, ops2, r2⟩
  have hs := resolver_ops_shape _ _ _ _ _ _ _ hout
  suffices hsuf :
      (Op.invoke ExternalAction.leaveVoicemail ∈ ops2 →
        ops2 = [Op.markTag ActionTag.voicemail_direct, Op.setState CallState.VOICEMAIL_DELIVERED,
          Op.invoke ExternalAction.leaveVoicemail] ∨
        ops2 = [Op.markTag ActionTag.voicemail_after_ios26, Op.setState CallState.VOICEMAIL_DELIVERED,
          Op.invoke ExternalAction.leaveVoicemail]) ∧
      (Op.invoke ExternalAction.passthrough ∈ ops2 →
        ops2 = [Op.invoke ExternalAction.passthrough, Op.setState CallState.PASSTHROUGH,
          Op.markTag ActionTag.human_passthrough] ∨
        ops2 = [Op.invoke ExternalAction.passthrough, Op.setState CallState.PASSTHROUGH,
          Op.markTag ActionTag.human_passthrough_fallback] ∨
        ops2 = [Op.invoke ExternalAction.passthrough, Op.setState CallState.PASSTHROUGH,
          Op.markTag ActionTag.human_after_ios26]) ∧
      (Op.invoke ExternalAction.identify ∈ ops2 →
        ops2 = [Op.setState CallState.IOS26_MONITORING, Op.invoke ExternalAction.identify]) by
    simpa using hsuf
  rcases hs with h | h | h | h | h | h | h <;> subst h <;>
    exact ⟨by decide, by decide, by decide⟩

/-- Witness for C4 on concrete voicemail, human and preamble transcripts. -/
theorem C4_guard_order_amended_witness :
    ((processTranscriptionWithScenarios initStore
        (strL "please leave a message after the tone") 10000 false).2.1 =
      [Op.markTag ActionTag.voicemail_direct, Op.setState CallState.VOICEMAIL_DELIVERED,
       Op.invoke ExternalAction.leaveVoicemail] ∨
     (processTranscriptionWithScenarios initStore
        (strL "please leave a message after the tone") 10000 false).2.1 =
      [Op.markTag ActionTag.voicemail_after_ios26, Op.setState CallState.VOICEMAIL_DELIVERED,
       Op.invoke ExternalAction.leaveVoicemail]) ∧
    ((processTranscriptionWithScenarios monStore (strL "hello, who is this") 18000 false).2.1 =
      [Op.invoke ExternalAction.passthrough, Op.setState CallState.PASSTHROUGH,
       Op.markTag ActionTag.human_passthrough] ∨
     (processTranscriptionWithScenarios monStore (strL "hello, who is this") 18000 false).2.1 =
      [Op.invoke ExternalAction.passthrough, Op.setState CallState.PASSTHROUGH,
       Op.markTag ActionTag.human_passthrough_fallback] ∨
     (processTranscriptionWithScenarios monStore (strL "hello, who is this") 18000 false).2.1 =
      [Op.invoke ExternalAction.passthrough, Op.setState CallState.PASSTHROUGH,
       Op.markTag ActionTag.human_after_ios26]) ∧
    (processTranscriptionWithScenarios initStore (strL "if you record your name") 3000 false).2.1 =
      [Op.setState CallState.IOS26_MONITORING, Op.invoke ExternalAction.identify] :=
  ⟨(C4_guard_order_amended initStore _ 10000 false).1 (by decide),
   (C4_guard_order_amended monStore _ 18000 false).2.1 (by decide),
   (C4_guard_order_amended initStore _ 3000 false).2.2 (by decide)⟩


/-- Claim C5, counterexample: on a completed, just-updated external call
the LeaveVoicemail and Passthrough operations perform no delay and no
re-read and still issue the mutation, instead of aborting with ABORTED. -/
theorem C5_dispatcher_guard_counterexample :
    leaveVoicemailMessage ⟨ExtCallStatus.completed, some 0⟩ = [DispOp.updateCall] ∧
    DispOp.fetchCall ∉ leaveVoicemailMessage ⟨ExtCallStatus.completed, some 0⟩ ∧
    DispOp.delayMs 100 ∉ leaveVoicemailMessage ⟨ExtCallStatus.completed, some 0⟩ ∧
    stopTranscriptionAndPassthrough ⟨ExtCallStatus.completed, some 0⟩ = [DispOp.updateCall] := by
  decide

/-- Claim C5 as amended: only the Identify operation performs the 100ms
delay, re-reads the call and aborts with ABORTED on a terminal status or
a mutation under 2s old; LeaveVoicemail and Passthrough issue their
mutation unconditionally with no delay, no re-read and no ABORTED result. -/
theorem C5_dispatcher_guard_amended (ext : ExtCall) (upd : UpdateOutcome) :
    ((isTerminalCallStatus ext.status = true ∨
        (∃ m, ext.msSinceUpdate = some m ∧ m < 2000)) →
      playIOS26Response ext true upd =
        (DispatchResult.aborted, [DispOp.delayMs 100, DispOp.fetchCall])) ∧
    ((isTerminalCallStatus ext.status = false ∧
        (∀ m, ext.msSinceUpdate = some m → 2000 ≤ m)) →
      playIOS26Response ext true upd =
        (updResult upd, [DispOp.delayMs 100, DispOp.fetchCall, DispOp.updateCall])) ∧
    leaveVoicemailMessage ext = [DispOp.updateCall] ∧
    stopTranscriptionAndPassthrough ext = [DispOp.updateCall] := by
  refine ⟨?_, ?_, rfl, rfl⟩
  · intro h
    unfold playIOS26Response
    rcases h with ht | ⟨m, hm, hlt⟩
    · simp [ht]
    · by_cases ht2 : isTerminalCallStatus ext.status
      · simp [ht2]
      · simp [ht2, hm, hlt]
  · rintro ⟨h1, h2⟩
    unfold playIOS26Response
    rcases hm : ext.msSinceUpdate with _ | m
    · simp [h1, hm]
    · have hge := h2 m hm
      simp [h1, hm]
      omega

/-- Witness for C5 on a completed external call. -/
theorem C5_dispatcher_guard_amended_witness :
    playIOS26Response ⟨ExtCallStatus.completed, some 0⟩ true UpdateOutcome.ok =
      (DispatchResult.aborted, [DispOp.delayMs 100, DispOp.fetchCall]) ∧
    playIOS26Response ⟨ExtCallStatus.inProgress, some 5000⟩ true UpdateOutcome.ok =
      (DispatchResult.success, [DispOp.delayMs 100, DispOp.fetchCall, DispOp.updateCall]) ∧
    leaveVoicemailMessage ⟨ExtCallStatus.completed, some 0⟩ = [DispOp.updateCall] :=
  ⟨(C5_dispatcher_guard_amended ⟨ExtCallStatus.completed, some 0⟩ UpdateOutcome.ok).1
      (Or.inl (by decide)),
   (C5_dispatcher_guard_amended ⟨ExtCallStatus.inProgress, some 5000⟩ UpdateOutcome.ok).2.1
      (by refine ⟨rfl, ?_⟩; intro m hm; cases hm; omega),
   (C5_dispatcher_guard_amended ⟨ExtCallStatus.completed, some 0⟩ UpdateOutcome.ok).2.2.1⟩

/-- Claim C6, code behaviour at the failing input: after lifecycle
in-progress at t = 0 and transcript "hello?" at t = 8s the resolver fires
nothing — the session stays INITIAL with an empty trace, because
detectHumanSpeech does not classify "hello?" as human speech. -/
theorem C6_early_human_code_behaviour :
    (runEvents emptyStore c6Events).1.callState = some CallState.INITIAL ∧
    (runEvents emptyStore c6Events).2 = [] ∧
    detectHumanSpeech (strL "hello?") = false := by
  decide

/-- Claim C7, counterexample: an unparseable transcript payload for a call
with no session yet mutates the session store — late initialization runs
before the parse and creates a fresh INITIAL session. -/
theorem C7_parse_error_counterexample :
    (handleEvent emptyStore (Event.transcriptContent none 5000 false)).1 ≠ emptyStore ∧
    handleEvent emptyStore (Event.transcriptContent none 5000 false) =
      (initCallState emptyStore 5000, []) := by
  decide

/-- Claim C7 as amended: an unparseable transcript payload leaves an
existing session exactly unchanged (window, start time, machine signal,
fired actions), but when no session exists the handler first creates a
fresh INITIAL session by late initialization. -/
theorem C7_parse_error_amended (st : Store) (now : Nat) (ab : Bool) :
    (st.callState.isSome = true →
      handleEvent st (Event.transcriptContent none now ab) = (st, [])) ∧
    (st.callState = none →
      handleEvent st (Event.transcriptContent none now ab) = (initCallState st now, [])) := by
  constructor
  · intro h
    rcases hst : st.callState with _ | s
    · rw [hst] at h
      simp at h
    · simp [handleEvent, hst]
  · intro h
    simp [handleEvent, h]

/-- Witness for C7 on an existing and on a missing session. -/
theorem C7_parse_error_amended_witness :
    handleEvent initStore (Event.transcriptContent none 7000 false) = (initStore, []) ∧
    handleEvent emptyStore (Event.transcriptContent none 7000 false) =
      (initCallState emptyStore 7000, []) :=
  ⟨(C7_parse_error_amended initStore 7000 false).1 (by decide),
   (C7_parse_error_amended emptyStore 7000 false).2 rfl⟩

/-- Claim C8: the classifier truth table of the spec holds on the code. -/
theorem C8_classifier_truth_table :
    detectIOS26Patterns (strL "if you record your name and reason for calling") = true ∧
    detectVoicemailPatterns (strL "please leave a message after the tone") = true ∧
    detectIntermediatePrompts (strL "thanks, stay on the line") = true ∧
    detectIntermediatePrompts
      (strL "thanks for calling, this is a long sentence about something else entirely") = false ∧
    detectHumanSpeech (strL "hello, who is this?") = true ∧
    detectHumanSpeech (strq "you" "ve reached the voicemail of John, please leave a message") = false := by
  decide

/-- Claim C9: the transcript window always holds at most 300 characters
and equals the most recent 300-character suffix of the space-joined
concatenation of the appended chunks, and every resolver invocation
updates the stored window by exactly one accumulation step. -/
theorem C9_transcript_window (texts : List (List Char)) (st : Store) (tr : List Char)
    (now : Nat) (ab : Bool) :
    (foldWindow texts).length ≤ 300 ∧
    foldWindow texts = rightTrunc 300 (joinTexts texts) ∧
    (processTranscriptionWithScenarios st tr now ab).1.transcripts =
      some (accumulateWindow (st.transcripts.getD []) tr) :=
  ⟨(foldWindow_spec texts).2, (foldWindow_spec texts).1, resolver_transcripts st tr now ab⟩

/-- Claim C10: an initialization-class lifecycle webhook re-initializes a
session still in INITIAL (start time reset to now, window cleared, state
INITIAL, machine signal and fired actions kept), and leaves a session in
any state beyond INITIAL entirely unchanged. -/
theorem C10_reinit_on_initial (st : Store) (status : Option LifecycleStatus) (now : Nat)
    (h : isInitStatus status = true) :
    (st.callState = some CallState.INITIAL →
      handleEvent st (Event.lifecycle status now) = (initCallState st now, [])) ∧
    (∀ s, st.callState = some s → s ≠ CallState.INITIAL →
      handleEvent st (Event.lifecycle status now) = (st, [])) := by
  have hcl : isCleanupStatus status = false := by
    rcases status with _ | s
    · rfl
    · cases s <;> simp_all [isInitStatus, isCleanupStatus]
  constructor
  · intro hI
    simp [handleEvent, hI, isTerminalState, hcl, h]
  · intro s hs hne
    cases s <;> simp_all [handleEvent, isTerminalState, hcl, h]

/-- Witness for C10 on an INITIAL session and a monitoring session. -/
theorem C10_reinit_on_initial_witness :
    handleEvent initStore (Event.lifecycle (some LifecycleStatus.ringing) 4000) =
      (initCallState initStore 4000, []) ∧
    handleEvent monStore (Event.lifecycle (some LifecycleStatus.ringing) 4000) =
      (monStore, []) :=
  ⟨(C10_reinit_on_initial initStore (some LifecycleStatus.ringing) 4000 (by decide)).1 rfl,
   (C10_reinit_on_initial monStore (some LifecycleStatus.ringing) 4000 (by decide)).2
      CallState.IOS26_MONITORING rfl (by decide)⟩


end IOS26Screening
